import Mathlib

set_option autoImplicit false

/-! Verification of the embedded-database client layer: instance registry,
connection lifecycle, table-function registry, and cooperative interrupt. -/

/-- A single-quote character, used inside error messages. -/
def squote : String := String.singleton (Char.ofNat 39)

/-- `strContains hay pat` holds when `pat` occurs as a substring of `hay`. -/
def strContains (hay pat : String) : Prop := ∃ a b, hay = a ++ pat ++ b

/-- First-match association-list lookup (insertion at the front overrides). -/
def alookup {κ α : Type} [DecidableEq κ] (key : κ) : List (κ × α) → Option α
  | [] => none
  | (k, v) :: rest => if k = key then some v else alookup key rest

/-- Remove every binding of `key` from an association list. -/
def aremove {κ α : Type} [DecidableEq κ] (key : κ) : List (κ × α) → List (κ × α)
  | [] => []
  | (k, v) :: rest => if k = key then aremove key rest else (k, v) :: aremove key rest

theorem alookup_aremove {κ α : Type} [DecidableEq κ] (key : κ) (l : List (κ × α)) :
    alookup key (aremove key l) = none := by
  induction l with
  | nil => rfl
  | cons hd tl ih =>
    obtain ⟨k, v⟩ := hd
    by_cases h : k = key
    · simp [aremove, h, ih]
    · simp [aremove, alookup, h, ih]

/-- Modelled from the spec: the error taxonomy of §7 (the `_duckdb` native
module that raises these exception classes is not part of the sources). -/
inductive DbError where
  | invalidInput (msg : String)
  | notImplemented (msg : String)
  | connectionErr (msg : String)
  | catalogErr (msg : String)
  | configurationErr (msg : String)
  deriving DecidableEq

/-- Modelled from the spec: a FunctionRegistry entry — declared schema as an
ordered list of (column name, column type), plus an opaque callable identity. -/
structure TVFEntry where
  callableId : Nat
  schema : List (String × String)
  deriving DecidableEq

/-- Modelled from the spec: the per-Connection table-function state. `registry`
is the FunctionRegistry bookkeeping (§4.5); `catalog` is the set of
engine-level SQL objects that query resolution consults — unregistration
removes a name from `registry` only, which is the documented relaxed-consistency
behavior observed by the tests in tests/fast/tvf/test_register.py. -/
structure TVFState where
  registry : List (String × TVFEntry)
  catalog : List (String × TVFEntry)
  deriving DecidableEq

/-- The duplicate-registration error message. -/
def alreadyRegisteredMsg (name : String) : String :=
  ("Table function " ++ squote ++ name ++ squote ++ " is ") ++ "already registered" ++
    " on this connection, unregister it first"

/-- The unknown-name unregistration error message. -/
def noTableFunctionMsg (name : String) : String :=
  "No table function by the name of " ++ squote ++ name ++ squote

/-- Modelled from the spec: `register` of §4.5 / `create_table_function` of the
missing `_duckdb` module. Fails when the name is already REGISTERED; otherwise
records the entry in the registry and installs the callable in the catalog. -/
def create_table_function (s : TVFState) (name : String) (e : TVFEntry) :
    Except DbError TVFState :=
  match alookup name s.registry with
  | some _ => .error (.notImplemented (alreadyRegisteredMsg name))
  | none => .ok { registry := (name, e) :: s.registry, catalog := (name, e) :: s.catalog }

/-- Modelled from the spec: `unregister` of §4.5 / `unregister_table_function`
of the missing `_duckdb` module. Fails when the name is UNREGISTERED; otherwise
removes the name from the registry bookkeeping only (the catalog keeps the
already-installed callable, per the observed relaxed-consistency behavior). -/
def unregister_table_function (s : TVFState) (name : String) :
    Except DbError TVFState :=
  match alookup name s.registry with
  | some _ => .ok { s with registry := aremove name s.registry }
  | none => .error (.invalidInput (noTableFunctionMsg name))

/-- Modelled from the spec: query resolution of a table-function name, which
consults the engine catalog. -/
def resolveTVF (s : TVFState) (name : String) : Option TVFEntry :=
  alookup name s.catalog

/-- C2: registering a name that is already registered on the connection fails
with an error whose message contains "already registered", and the existing
registration is not replaced — the name still resolves to the first entry. -/
theorem create_table_function_duplicate_fails (s s1 : TVFState) (n : String)
    (e1 e2 : TVFEntry) (hc : create_table_function s n e1 = .ok s1) :
    create_table_function s1 n e2 = .error (.notImplemented (alreadyRegisteredMsg n)) ∧
    strContains (alreadyRegisteredMsg n) "already registered" ∧
    resolveTVF s1 n = some e1 := by
  cases hl : alookup n s.registry with
  | some v => simp [create_table_function, hl] at hc
  | none =>
    simp only [create_table_function, hl] at hc
    cases hc
    refine ⟨?_, ?_, ?_⟩
    · simp [create_table_function, alookup]
    · exact ⟨"Table function " ++ squote ++ n ++ squote ++ " is ",
        " on this connection, unregister it first", rfl⟩
    · simp [resolveTVF, alookup]

/-- C6: unregistering a name that is not currently registered fails with an
InvalidInput error whose message is "No table function by the name of 'n'"
(with the name substituted), both when the name was never registered and when
it was registered and then already unregistered once. -/
theorem unregister_table_function_unknown_name_fails (s s1 s2 : TVFState)
    (n : String) (e : TVFEntry)
    (hnever : alookup n s.registry = none)
    (hc : create_table_function s n e = .ok s1)
    (hu : unregister_table_function s1 n = .ok s2) :
    unregister_table_function s n =
      .error (.invalidInput ("No table function by the name of " ++ squote ++ n ++ squote)) ∧
    unregister_table_function s2 n =
      .error (.invalidInput ("No table function by the name of " ++ squote ++ n ++ squote)) := by
  simp only [create_table_function, hnever] at hc
  cases hc
  simp only [unregister_table_function, alookup, if_pos rfl] at hu
  cases hu
  constructor
  · simp [unregister_table_function, hnever, noTableFunctionMsg]
  · simp [unregister_table_function, alookup_aremove, noTableFunctionMsg]

/-- C7: the per-name REGISTERED/UNREGISTERED round trip — after a successful
unregister of a registered name, registering the same name with a new entry
succeeds, and query resolution afterwards observes the new entry. -/
theorem reregister_after_unregister_succeeds (s s1 s2 : TVFState) (n : String)
    (e1 e2 : TVFEntry)
    (hc : create_table_function s n e1 = .ok s1)
    (hu : unregister_table_function s1 n = .ok s2) :
    create_table_function s2 n e2 =
      .ok { registry := (n, e2) :: s2.registry, catalog := (n, e2) :: s2.catalog } ∧
    resolveTVF { registry := (n, e2) :: s2.registry, catalog := (n, e2) :: s2.catalog } n =
      some e2 := by
  cases hl : alookup n s.registry with
  | some v => simp [create_table_function, hl] at hc
  | none =>
    simp only [create_table_function, hl] at hc
    cases hc
    simp only [unregister_table_function, alookup, if_pos rfl] at hu
    cases hu
    constructor
    · simp [create_table_function, alookup_aremove]
    · simp [resolveTVF, alookup]

/-- C9: after a successful unregister, a fresh query on the name still resolves
to the previously registered entry — unregistration removes the name only from
the registry bookkeeping (so a second unregister fails), not from query
resolution. -/
theorem unregister_keeps_query_resolution (s s1 s2 : TVFState) (n : String)
    (e : TVFEntry)
    (hc : create_table_function s n e = .ok s1)
    (hu : unregister_table_function s1 n = .ok s2) :
    resolveTVF s2 n = some e ∧
    unregister_table_function s2 n =
      .error (.invalidInput ("No table function by the name of " ++ squote ++ n ++ squote)) := by
  cases hl : alookup n s.registry with
  | some v => simp [create_table_function, hl] at hc
  | none =>
    simp only [create_table_function, hl] at hc
    cases hc
    simp only [unregister_table_function, alookup, if_pos rfl] at hu
    cases hu
    constructor
    · simp [resolveTVF, alookup]
    · simp [unregister_table_function, alookup_aremove, noTableFunctionMsg]

/-- Modelled from the spec: invocation-time schema validation of §4.5 — the
declared schema is checked against the produced shape; column count and
positional column type must match, column names are not compared. -/
def validateSchema (declared produced : List (String × String)) : Except DbError Unit :=
  if produced.length ≠ declared.length then
    .error (.invalidInput (("Schema mismatch: function returned " ++
      toString produced.length ++ " columns, but " ++ toString declared.length ++
      " were ") ++ "declared"))
  else if produced.map Prod.snd ≠ declared.map Prod.snd then
    .error (.invalidInput "Schema mismatch: returned column type does not match the declared column type")
  else .ok ()

/-- Modelled from the spec: invoking a registered table function on the shape
(ordered (name, type) columns) actually produced by its callable. -/
def invokeEntry (e : TVFEntry) (produced : List (String × String)) : Except DbError Unit :=
  validateSchema e.schema produced

/-- C3: a produced column count differing from the declared count, or a
produced positional column type differing from the declared type, yields a
structured InvalidInput error (never a crash: `invokeEntry` is total); when
only the column names differ (positional types all equal), invocation
succeeds. -/
theorem invokeEntry_schema_contract (e : TVFEntry) (produced : List (String × String)) :
    (produced.length ≠ e.schema.length →
      ∃ msg, invokeEntry e produced = .error (.invalidInput msg)) ∧
    (produced.length = e.schema.length →
      produced.map Prod.snd ≠ e.schema.map Prod.snd →
      ∃ msg, invokeEntry e produced = .error (.invalidInput msg)) ∧
    (produced.map Prod.snd = e.schema.map Prod.snd →
      invokeEntry e produced = .ok ()) := by
  refine ⟨?_, ?_, ?_⟩
  · intro hne
    exact ⟨("Schema mismatch: function returned " ++ toString produced.length ++
      " columns, but " ++ toString e.schema.length ++ " were ") ++ "declared",
      by simp [invokeEntry, validateSchema, hne]⟩
  · intro hlen hty
    exact ⟨"Schema mismatch: returned column type does not match the declared column type",
      by simp [invokeEntry, validateSchema, hlen, hty]⟩
  · intro hty
    have hlen : produced.length = e.schema.length := by
      have := congrArg List.length hty
      simpa using this
    simp [invokeEntry, validateSchema, hlen, hty]

/-- Positional list indexing, `none` when out of range. -/
def nth {α : Type} : List α → Nat → Option α
  | [], _ => none
  | a :: _, 0 => some a
  | _ :: l, n + 1 => nth l n

/-- Replace the element at an index, identity when out of range. -/
def setNth {α : Type} : List α → Nat → α → List α
  | [], _, _ => []
  | _ :: l, 0, b => b :: l
  | a :: l, n + 1, b => a :: setNth l n b

theorem nth_setNth_eq {α : Type} (l : List α) (i : Nat) (b : α)
    (h : i < l.length) : nth (setNth l i b) i = some b := by
  induction l generalizing i with
  | nil => simp at h
  | cons hd tl ih =>
    cases i with
    | zero => rfl
    | succ n => exact ih n (by simpa using h)

theorem nth_setNth_ne {α : Type} (l : List α) (i j : Nat) (b : α)
    (h : i ≠ j) : nth (setNth l i b) j = nth l j := by
  induction l generalizing i j with
  | nil => rfl
  | cons hd tl ih =>
    cases i with
    | zero =>
      cases j with
      | zero => exact absurd rfl h
      | succ m => rfl
    | succ n =>
      cases j with
      | zero => rfl
      | succ m => exact ih n m (fun hnm => h (by rw [hnm]))

theorem nth_append_length {α : Type} (l : List α) (a : α) :
    nth (l ++ [a]) l.length = some a := by
  induction l with
  | nil => rfl
  | cons hd tl ih => simpa [nth] using ih

theorem nth_append_lt {α : Type} (l l' : List α) (i : Nat) (h : i < l.length) :
    nth (l ++ l') i = nth l i := by
  induction l generalizing i with
  | nil => simp at h
  | cons hd tl ih =>
    cases i with
    | zero => rfl
    | succ n => exact ih n (by simpa using h)

/-- Modelled from the spec: the opaque Engine — its observable state here is
its catalog of tables and its global settings (§2, §3). -/
structure Engine where
  tables : List String
  settings : List (String × Int)
  deriving DecidableEq

/-- Modelled from the spec: the normalized storage identity of §3 — anonymous
in-memory, named in-memory tag, the process-wide default sentinel, or a
file-backed path (§6). -/
inductive StorageIdentity where
  | anonMemory
  | namedMemory (tag : String)
  | defaultId
  | fileBacked (path : String)
  deriving DecidableEq

/-- Modelled from the spec: the connect-time configuration map of §6 — a
read-only flag plus engine-setting options. -/
structure DbConfig where
  read_only : Bool
  options : List (String × Int)
  deriving DecidableEq

/-- The all-default configuration (no additional options). -/
def defaultDbConfig : DbConfig := { read_only := false, options := [] }

/-- A connection handle: which shared engine instance it is bound to. -/
structure ConnHandle where
  engineId : Nat
  deriving DecidableEq

/-- Modelled from the spec: the process-wide module state — the engines that
exist (indexed by id), the InstanceRegistry cache mapping a storage identity
to its shared engine id and the configuration it was opened with, and the
default-connection slot (§4.1, §9). -/
structure World where
  engines : List Engine
  cache : List (StorageIdentity × (Nat × DbConfig))
  defaultEngine : Option Nat
  deriving DecidableEq

/-- Cache entries and the default slot point at existing engines. -/
def wfb (w : World) : Bool :=
  w.cache.all (fun p => decide (p.2.1 < w.engines.length)) &&
    (match w.defaultEngine with
     | none => true
     | some e => decide (e < w.engines.length))

/-- A freshly constructed engine: empty catalog, settings from the config. -/
def newEngine (cfg : DbConfig) : Engine :=
  { tables := [], settings := cfg.options }

/-- The error message rejecting configured requests for the default identity. -/
def defaultOptionsMsg : String :=
  "Default connection fetching is only allowed without additional options"

/-- Modelled from the spec: `acquire` of §4.1 for cacheable identities — reuse
the cached engine when the configuration matches, reject an incompatible
configuration, construct and insert on a miss. -/
def connectCached (w : World) (id : StorageIdentity) (cfg : DbConfig) :
    Except DbError (World × ConnHandle) :=
  match alookup id w.cache with
  | some ec =>
      if ec.2 = cfg then .ok (w, ⟨ec.1⟩)
      else .error (.configurationErr
        "Cannot open a connection to the same database with a different configuration")
  | none =>
      .ok ({ w with engines := w.engines ++ [newEngine cfg], cache := (id, (w.engines.length, cfg)) :: w.cache }, ⟨w.engines.length⟩)

/-- Modelled from the spec: the connection factory (§4.1, §6). Anonymous
in-memory identities always construct a fresh engine; the default identity
resolves to the process-wide singleton slot and rejects any non-default
configuration; named in-memory tags and file paths go through the
InstanceRegistry cache. -/
def connect (w : World) (id : StorageIdentity) (cfg : DbConfig) :
    Except DbError (World × ConnHandle) :=
  match id with
  | .anonMemory =>
      .ok ({ w with engines := w.engines ++ [newEngine cfg] }, ⟨w.engines.length⟩)
  | .defaultId =>
      if cfg = defaultDbConfig then
        match w.defaultEngine with
        | some eid => .ok (w, ⟨eid⟩)
        | none =>
            .ok ({ w with engines := w.engines ++ [newEngine cfg], defaultEngine := some w.engines.length }, ⟨w.engines.length⟩)
      else .error (.invalidInput defaultOptionsMsg)
  | .namedMemory tag => connectCached w (.namedMemory tag) cfg
  | .fileBacked path => connectCached w (.fileBacked path) cfg

/-- Modelled from the spec: a global-setting mutation (`SET GLOBAL`) issued
through a connection mutates the shared engine instance it is bound to. -/
def setGlobalSetting (w : World) (h : ConnHandle) (key : String) (v : Int) : World :=
  match nth w.engines h.engineId with
  | none => w
  | some e =>
      { w with engines := setNth w.engines h.engineId { e with settings := (key, v) :: e.settings } }

/-- Modelled from the spec: reading a global setting through a connection reads
the shared engine instance it is bound to. -/
def currentSetting (w : World) (h : ConnHandle) (key : String) : Option Int :=
  match nth w.engines h.engineId with
  | none => none
  | some e => alookup key e.settings

/-- Modelled from the spec: a catalog mutation (DDL `CREATE TABLE`) issued
through a connection mutates the catalog of its shared engine instance. -/
def createTable (w : World) (h : ConnHandle) (t : String) : World :=
  match nth w.engines h.engineId with
  | none => w
  | some e =>
      { w with engines := setNth w.engines h.engineId { e with tables := t :: e.tables } }

/-- Modelled from the spec: querying a table through a connection consults the
catalog of its engine; a missing table is a catalog error (§7). -/
def queryTable (w : World) (h : ConnHandle) (t : String) : Except DbError Unit :=
  match nth w.engines h.engineId with
  | none => .error (.connectionErr "Connection already closed")
  | some e =>
      if t ∈ e.tables then .ok ()
      else .error (.catalogErr ("Table with name " ++ t ++ " does not exist"))

theorem alookup_mem {κ α : Type} [DecidableEq κ] (key : κ) (l : List (κ × α)) (v : α)
    (h : alookup key l = some v) : (key, v) ∈ l := by
  induction l with
  | nil => simp [alookup] at h
  | cons hd tl ih =>
    obtain ⟨k, v'⟩ := hd
    by_cases hk : k = key
    · subst hk
      have h' : v' = v := by simpa [alookup] using h
      subst h'
      exact List.mem_cons_self _ _
    · simp only [alookup, if_neg hk] at h
      exact List.mem_cons_of_mem _ (ih h)

theorem nth_isSome {α : Type} (l : List α) (i : Nat) (h : i < l.length) :
    ∃ a, nth l i = some a := by
  induction l generalizing i with
  | nil => simp at h
  | cons hd tl ih =>
    cases i with
    | zero => exact ⟨hd, rfl⟩
    | succ n => exact ih n (by simpa using h)

theorem wfb_cache_lt (w : World) (id : StorageIdentity) (ec : Nat × DbConfig)
    (hwf : wfb w = true) (h : alookup id w.cache = some ec) :
    ec.1 < w.engines.length := by
  simp only [wfb, Bool.and_eq_true, List.all_eq_true, decide_eq_true_eq] at hwf
  exact hwf.1 _ (alookup_mem id w.cache ec h)

theorem wfb_default_lt (w : World) (e : Nat) (hwf : wfb w = true)
    (h : w.defaultEngine = some e) : e < w.engines.length := by
  simp only [wfb, h, Bool.and_eq_true, decide_eq_true_eq] at hwf
  exact hwf.2

theorem currentSetting_setGlobalSetting (w : World) (h : ConnHandle) (key : String)
    (v : Int) (hlt : h.engineId < w.engines.length) :
    currentSetting (setGlobalSetting w h key v) h key = some v := by
  obtain ⟨e, he⟩ := nth_isSome w.engines h.engineId hlt
  simp [setGlobalSetting, he, currentSetting, nth_setNth_eq _ _ _ hlt, alookup]

theorem queryTable_createTable (w : World) (h : ConnHandle) (t : String)
    (hlt : h.engineId < w.engines.length) :
    queryTable (createTable w h t) h t = .ok () := by
  obtain ⟨e, he⟩ := nth_isSome w.engines h.engineId hlt
  simp [createTable, he, queryTable, nth_setNth_eq _ _ _ hlt]

theorem connectCached_ok (w w1 : World) (id : StorageIdentity) (cfg : DbConfig)
    (h1 : ConnHandle) (hwf : wfb w = true)
    (hok : connectCached w id cfg = .ok (w1, h1)) :
    alookup id w1.cache = some (h1.engineId, cfg) ∧ h1.engineId < w1.engines.length := by
  cases hl : alookup id w.cache with
  | some ec =>
    obtain ⟨eid, ecfg⟩ := ec
    by_cases hc : ecfg = cfg
    · subst hc
      simp only [connectCached, hl, if_pos rfl] at hok
      injection hok with hp
      injection hp with hw hh
      subst hw
      subst hh
      exact ⟨hl, wfb_cache_lt w id (eid, ecfg) hwf hl⟩
    · simp [connectCached, hl, hc] at hok
  | none =>
    simp only [connectCached, hl] at hok
    injection hok with hp
    injection hp with hw hh
    subst hw
    subst hh
    constructor
    · simp [alookup]
    · simp

/-- C1: two connect requests with the same cacheable storage identity (a named
in-memory tag or a file path) and the same configuration resolve to the same
engine instance, and a global-setting or catalog mutation performed through the
first handle is visible through the second immediately after it returns. -/
theorem connect_same_identity_shares_engine (w w1 w2 : World) (id : StorageIdentity)
    (cfg : DbConfig) (h1 h2 : ConnHandle)
    (hwf : wfb w = true)
    (hid : (∃ tag, id = .namedMemory tag) ∨ (∃ p, id = .fileBacked p))
    (hc1 : connect w id cfg = .ok (w1, h1))
    (hc2 : connect w1 id cfg = .ok (w2, h2)) :
    h1.engineId = h2.engineId ∧
    (∀ k v, currentSetting (setGlobalSetting w2 h1 k v) h2 k = some v) ∧
    (∀ t, queryTable (createTable w2 h1 t) h2 t = .ok ()) := by
  have hcc1 : connectCached w id cfg = .ok (w1, h1) := by
    rcases hid with ⟨tag, rfl⟩ | ⟨p, rfl⟩ <;> simpa [connect] using hc1
  have hcc2 : connectCached w1 id cfg = .ok (w2, h2) := by
    rcases hid with ⟨tag, rfl⟩ | ⟨p, rfl⟩ <;> simpa [connect] using hc2
  obtain ⟨hlk, hlt⟩ := connectCached_ok w w1 id cfg h1 hwf hcc1
  have hstep : connectCached w1 id cfg = .ok (w1, ⟨h1.engineId⟩) := by
    simp [connectCached, hlk]
  rw [hstep] at hcc2
  injection hcc2 with hp
  injection hp with hw hh
  subst hw
  subst hh
  exact ⟨rfl, fun k v => currentSetting_setGlobalSetting w1 h1 k v hlt,
    fun t => queryTable_createTable w1 h1 t hlt⟩

/-- C8: the default identity with default configuration resolves to the single
process-wide default engine (both requests share one engine and its catalog),
and a request for the default identity with any non-default configuration
fails with the InvalidInput connect-time error. -/
theorem default_identity_singleton_and_rejects_config (w w1 w2 : World)
    (h1 h2 : ConnHandle) (hwf : wfb w = true)
    (hc1 : connect w .defaultId defaultDbConfig = .ok (w1, h1))
    (hc2 : connect w1 .defaultId defaultDbConfig = .ok (w2, h2)) :
    h1.engineId = h2.engineId ∧
    (∀ t, queryTable (createTable w2 h1 t) h2 t = .ok ()) ∧
    (∀ cfg : DbConfig, cfg ≠ defaultDbConfig →
      connect w .defaultId cfg = .error (.invalidInput defaultOptionsMsg)) := by
  cases hd : w.defaultEngine with
  | some eid =>
    have hstep1 : connect w .defaultId defaultDbConfig = .ok (w, ⟨eid⟩) := by
      simp [connect, hd]
    rw [hstep1] at hc1
    injection hc1 with hp1
    injection hp1 with hw1 hh1
    subst hw1
    subst hh1
    rw [hstep1] at hc2
    injection hc2 with hp2
    injection hp2 with hw2 hh2
    subst hw2
    subst hh2
    have hlt : eid < w.engines.length := wfb_default_lt w eid hwf hd
    refine ⟨rfl, fun t => queryTable_createTable w ⟨eid⟩ t hlt, ?_⟩
    intro cfg hne
    simp [connect, hne]
  | none =>
    have hstep1 : connect w .defaultId defaultDbConfig =
        .ok ({ w with engines := w.engines ++ [newEngine defaultDbConfig], defaultEngine := some w.engines.length }, ⟨w.engines.length⟩) := by
      simp [connect, hd]
    rw [hstep1] at hc1
    injection hc1 with hp1
    injection hp1 with hw1 hh1
    subst hw1
    subst hh1
    have hstep2 : connect { w with engines := w.engines ++ [newEngine defaultDbConfig], defaultEngine := some w.engines.length } .defaultId defaultDbConfig = .ok ({ w with engines := w.engines ++ [newEngine defaultDbConfig], defaultEngine := some w.engines.length }, ⟨w.engines.length⟩) := by
      simp [connect]
    rw [hstep2] at hc2
    injection hc2 with hp2
    injection hp2 with hw2 hh2
    subst hw2
    subst hh2
    have hlt : w.engines.length < ({ w with engines := w.engines ++ [newEngine defaultDbConfig], defaultEngine := some w.engines.length } : World).engines.length := by
      simp
    refine ⟨rfl, fun t => queryTable_createTable _ ⟨w.engines.length⟩ t hlt, ?_⟩
    intro cfg hne
    simp [connect, hne]

theorem connect_anon_ok (w w' : World) (cfg : DbConfig) (h : ConnHandle)
    (hok : connect w .anonMemory cfg = .ok (w', h)) :
    w'.engines = w.engines ++ [newEngine cfg] ∧ h.engineId = w.engines.length := by
  simp only [connect] at hok
  injection hok with hp
  injection hp with hw hh
  subst hw
  subst hh
  exact ⟨rfl, rfl⟩

/-- C10: two anonymous in-memory connect requests never share an engine
instance — the handles are bound to distinct engines, and a table created
through the first handle is not visible through the second: querying it there
is a catalog error. -/
theorem anonymous_memory_isolated (w w1 w2 : World) (cfg cfg2 : DbConfig)
    (h1 h2 : ConnHandle)
    (hc1 : connect w .anonMemory cfg = .ok (w1, h1))
    (hc2 : connect w1 .anonMemory cfg2 = .ok (w2, h2)) :
    h1.engineId ≠ h2.engineId ∧
    (∀ t, queryTable (createTable w2 h1 t) h2 t =
      .error (.catalogErr ("Table with name " ++ t ++ " does not exist"))) := by
  obtain ⟨he1, hh1⟩ := connect_anon_ok w w1 cfg h1 hc1
  obtain ⟨he2, hh2⟩ := connect_anon_ok w1 w2 cfg2 h2 hc2
  have hne : h1.engineId ≠ h2.engineId := by
    rw [hh1, hh2, he1]
    simp
  refine ⟨hne, ?_⟩
  intro t
  have hn1 : nth w2.engines h1.engineId = some (newEngine cfg) := by
    rw [he2, he1, hh1, nth_append_lt _ _ _ (by simp), nth_append_length]
  have hn2 : nth w2.engines h2.engineId = some (newEngine cfg2) := by
    rw [he2, hh2, nth_append_length]
  have hct : createTable w2 h1 t = { w2 with engines := setNth w2.engines h1.engineId { tables := [t], settings := cfg.options } } := by
    simp [createTable, hn1, newEngine]
  have hn3 : nth (setNth w2.engines h1.engineId { tables := [t], settings := cfg.options }) h2.engineId = some (newEngine cfg2) := by
    rw [nth_setNth_ne _ _ _ _ hne, hn2]
  rw [hct]
  simp [queryTable, hn3, newEngine]




/-- Modelled from the spec: the query/cancellation state machine of §4.4 —
execution is IDLE or RUNNING. -/
inductive QueryPhase where
  | idle
  | running
  deriving DecidableEq

/-- Modelled from the spec: a Connection with its InterruptToken — open flag,
current execution phase, the cancellation flag, and the generation counter
(§3, §4.4). -/
structure Conn where
  isOpen : Bool
  phase : QueryPhase
  interruptFlag : Bool
  generation : Nat
  deriving DecidableEq

/-- Modelled from the spec: how an in-flight execute call terminates —
completed with rows, unwound to INTERRUPTED, or failed. -/
inductive ExecResult where
  | completed (rows : List (List Int))
  | interrupted
  | failed (msg : String)
  deriving DecidableEq

/-- Modelled from the spec: `interrupt()` on a Connection — an error on a
closed Connection, otherwise it sets the cancellation flag (safe from any
thread, also when no query is active). -/
def interrupt (c : Conn) : Except DbError Conn :=
  if c.isOpen then .ok { c with interruptFlag := true }
  else .error (.connectionErr "Connection already closed")

/-- Modelled from the spec: entering RUNNING for a new execute call — the
generation counter is incremented and the cancellation flag reset, so a stale
interrupt cannot affect the new query (§4.4). -/
def startExecute (c : Conn) : Conn :=
  { c with phase := .running, interruptFlag := false, generation := c.generation + 1 }

/-- Modelled from the spec: the engine polls the token at a safe point; if the
flag is observed set, the execution unwinds to INTERRUPTED and the pending call
raises the interruption-specific error, otherwise it completes with its rows. -/
def finishExecute (c : Conn) (rows : List (List Int)) : Conn × ExecResult :=
  if c.interruptFlag then ({ c with phase := .idle, interruptFlag := false }, .interrupted)
  else ({ c with phase := .idle }, .completed rows)

/-- C4: when `interrupt` is called on an open Connection whose query is
RUNNING, the in-flight execution terminates with the interruption-specific
result — it never returns a (partial) completed row set and is distinguishable
from an ordinary execution failure. -/
theorem interrupt_running_raises_interrupted (c c1 : Conn) (rows : List (List Int))
    (hopen : c.isOpen = true) (hrun : c.phase = .running)
    (hint : interrupt c = .ok c1) :
    (finishExecute c1 rows).2 = .interrupted ∧
    (∀ rs, (finishExecute c1 rows).2 ≠ .completed rs) ∧
    (∀ msg, (finishExecute c1 rows).2 ≠ .failed msg) := by
  simp only [interrupt, hopen, if_true] at hint
  injection hint with hc1
  subst hc1
  refine ⟨by simp [finishExecute], ?_, ?_⟩
  · intro rs
    simp [finishExecute]
  · intro msg
    simp [finishExecute]

/-- C5: `interrupt` on an open Connection with no active query succeeds and
changes no observable state — the open flag, phase and generation are
unchanged and the next execute call starts from exactly the same state — while
`interrupt` on a closed Connection is a reported connection error. -/
theorem interrupt_idle_noop_and_closed_error (c : Conn)
    (hopen : c.isOpen = true) (hidle : c.phase = .idle) :
    interrupt c = .ok { c with interruptFlag := true } ∧
    startExecute { c with interruptFlag := true } = startExecute c ∧
    ({ c with interruptFlag := true } : Conn).isOpen = c.isOpen ∧
    ({ c with interruptFlag := true } : Conn).phase = c.phase ∧
    ({ c with interruptFlag := true } : Conn).generation = c.generation ∧
    (∀ d : Conn, d.isOpen = false →
      interrupt d = .error (.connectionErr "Connection already closed")) := by
  refine ⟨by simp [interrupt, hopen], by simp [startExecute], rfl, rfl, rfl, ?_⟩
  intro d hd
  simp [interrupt, hd]

/-- Witness for C1 at a concrete named in-memory identity and configuration. -/
theorem connect_same_identity_shares_engine_witness :
    currentSetting (setGlobalSetting { engines := [{ tables := [], settings := [("pandas_analyze_sample", 0)] }], cache := [(.namedMemory "named", (0, { read_only := false, options := [("pandas_analyze_sample", 0)] }))], defaultEngine := none } ⟨0⟩ "pandas_analyze_sample" 2) ⟨0⟩ "pandas_analyze_sample" = some 2 :=
  (connect_same_identity_shares_engine ⟨[], [], none⟩
    { engines := [{ tables := [], settings := [("pandas_analyze_sample", 0)] }], cache := [(.namedMemory "named", (0, { read_only := false, options := [("pandas_analyze_sample", 0)] }))], defaultEngine := none }
    { engines := [{ tables := [], settings := [("pandas_analyze_sample", 0)] }], cache := [(.namedMemory "named", (0, { read_only := false, options := [("pandas_analyze_sample", 0)] }))], defaultEngine := none }
    (.namedMemory "named") ⟨false, [("pandas_analyze_sample", 0)]⟩ ⟨0⟩ ⟨0⟩
    rfl (Or.inl ⟨"named", rfl⟩) rfl rfl).2.1 "pandas_analyze_sample" 2

/-- Witness for C2 at a concrete connection state. -/
theorem create_table_function_duplicate_fails_witness :
    resolveTVF { registry := [("test_func", ⟨1, [("name", "VARCHAR"), ("id", "INT")]⟩)], catalog := [("test_func", ⟨1, [("name", "VARCHAR"), ("id", "INT")]⟩)] } "test_func" = some ⟨1, [("name", "VARCHAR"), ("id", "INT")]⟩ :=
  (create_table_function_duplicate_fails ⟨[], []⟩ _ "test_func"
    ⟨1, [("name", "VARCHAR"), ("id", "INT")]⟩ ⟨2, [("name", "VARCHAR"), ("id", "INT")]⟩ rfl).2.2

/-- Witness for C3: a produced shape whose types match the declared schema
positionally while all names differ is accepted. -/
theorem invokeEntry_schema_contract_witness :
    invokeEntry ⟨7, [("a", "BIGINT"), ("b", "BIGINT"), ("c", "VARCHAR")]⟩ [("id", "BIGINT"), ("value", "BIGINT"), ("name", "VARCHAR")] = .ok () :=
  (invokeEntry_schema_contract ⟨7, [("a", "BIGINT"), ("b", "BIGINT"), ("c", "VARCHAR")]⟩ [("id", "BIGINT"), ("value", "BIGINT"), ("name", "VARCHAR")]).2.2 rfl

/-- Witness for C4 at a concrete running connection. -/
theorem interrupt_running_raises_interrupted_witness :
    (finishExecute ⟨true, .running, true, 5⟩ [[1, 2]]).2 = .interrupted :=
  (interrupt_running_raises_interrupted ⟨true, .running, false, 5⟩ ⟨true, .running, true, 5⟩ [[1, 2]] rfl rfl rfl).1

/-- Witness for C5 at a concrete idle connection. -/
theorem interrupt_idle_noop_and_closed_error_witness :
    startExecute ⟨true, QueryPhase.idle, true, 3⟩ = startExecute ⟨true, QueryPhase.idle, false, 3⟩ :=
  (interrupt_idle_noop_and_closed_error ⟨true, .idle, false, 3⟩ rfl rfl).2.1

/-- Witness for C6 at a concrete name registered once and unregistered once. -/
theorem unregister_table_function_unknown_name_fails_witness :
    unregister_table_function ⟨[], []⟩ "tracked_func" = .error (.invalidInput ("No table function by the name of " ++ squote ++ "tracked_func" ++ squote)) :=
  (unregister_table_function_unknown_name_fails ⟨[], []⟩ _ _ "tracked_func" ⟨1, [("version", "VARCHAR")]⟩ rfl rfl rfl).1

/-- Witness for C7 at a concrete register-unregister-register round trip. -/
theorem reregister_after_unregister_succeeds_witness :
    create_table_function ⟨[], [("versioned_func", ⟨1, [("name", "VARCHAR"), ("id", "INT")]⟩)]⟩ "versioned_func" ⟨2, [("name", "VARCHAR"), ("id", "INT")]⟩ = .ok ⟨[("versioned_func", ⟨2, [("name", "VARCHAR"), ("id", "INT")]⟩)], [("versioned_func", ⟨2, [("name", "VARCHAR"), ("id", "INT")]⟩), ("versioned_func", ⟨1, [("name", "VARCHAR"), ("id", "INT")]⟩)]⟩ :=
  (reregister_after_unregister_succeeds ⟨[], []⟩ _ _ "versioned_func"
    ⟨1, [("name", "VARCHAR"), ("id", "INT")]⟩ ⟨2, [("name", "VARCHAR"), ("id", "INT")]⟩ rfl rfl).1

/-- Witness for C8: the default identity with a non-default configuration is
rejected at connect time. -/
theorem default_identity_singleton_and_rejects_config_witness :
    connect ⟨[], [], none⟩ .defaultId ⟨true, []⟩ = .error (.invalidInput defaultOptionsMsg) :=
  (default_identity_singleton_and_rejects_config ⟨[], [], none⟩ ⟨[⟨[], []⟩], [], some 0⟩ ⟨[⟨[], []⟩], [], some 0⟩ ⟨0⟩ ⟨0⟩ rfl rfl rfl).2.2 ⟨true, []⟩ (by decide)

/-- Witness for C9 at a concrete connection state. -/
theorem unregister_keeps_query_resolution_witness :
    resolveTVF ⟨[], [("test_func", ⟨1, [("name", "VARCHAR"), ("id", "INT")]⟩)]⟩ "test_func" = some ⟨1, [("name", "VARCHAR"), ("id", "INT")]⟩ :=
  (unregister_keeps_query_resolution ⟨[], []⟩ _ _ "test_func" ⟨1, [("name", "VARCHAR"), ("id", "INT")]⟩ rfl rfl).1

/-- Witness for C10 at two concrete anonymous in-memory connections. -/
theorem anonymous_memory_isolated_witness :
    queryTable (createTable ⟨[⟨[], []⟩, ⟨[], []⟩], [], none⟩ ⟨0⟩ "test1") ⟨1⟩ "test1" = .error (.catalogErr ("Table with name " ++ "test1" ++ " does not exist")) :=
  (anonymous_memory_isolated ⟨[], [], none⟩ ⟨[⟨[], []⟩], [], none⟩ ⟨[⟨[], []⟩, ⟨[], []⟩], [], none⟩ ⟨false, []⟩ ⟨false, []⟩ ⟨0⟩ ⟨1⟩ rfl rfl).2 "test1"
